import Mathlib

/-!
A shallow embedding of the recipe-app backend (Django/DRF project, files
`app/recipe/views.py` and `app/user/serializers.py`) together with proofs of
the behavioural properties stated in its design specification.

Strings carried by requests and database rows are modelled as `List Char`
so that every definition evaluates inside the kernel on concrete inputs.
-/

namespace RecipeApp

/-- Request/database strings are lists of characters. -/
abbrev Str := List Char

/-- Python truthiness of an optional string: `None` and the empty string are
falsy, every other string is truthy.  This models the `if tags:` test in
`RecipeViewSet.get_queryset`. -/
def pyTruthy : Option Str → Bool
  | none => false
  | some s => !s.isEmpty

/-- Python `s.split(sep)` for a one-character separator: splitting the empty
string yields `[""]`, and consecutive separators yield empty groups. -/
def pySplit (sep : Char) : Str → List Str
  | [] => [[]]
  | c :: cs =>
    if c = sep then
      [] :: pySplit sep cs
    else
      match pySplit sep cs with
      | [] => [[c]]
      | g :: gs => (c :: g) :: gs

/-- Python `s.strip()`: remove leading and trailing whitespace. -/
def pyStrip (s : Str) : Str :=
  ((s.dropWhile Char.isWhitespace).reverse.dropWhile Char.isWhitespace).reverse

/-- Numeric value of a string of decimal digits. -/
def digitsVal (ds : Str) : Nat :=
  List.foldl (fun acc c => 10 * acc + (c.toNat - 48)) 0 ds

/-- Python `int(s)` on a string: optional surrounding whitespace, an optional
sign, then a nonempty run of decimal digits; anything else raises
`ValueError`, modelled as `none`.  (CPython additionally allows underscore
digit grouping, which no input in this development exercises.) -/
def pyInt (s : Str) : Option Int :=
  let t := pyStrip s
  let signed : Bool × Str :=
    match t with
    | '-' :: rest => (true, rest)
    | '+' :: rest => (false, rest)
    | rest => (false, rest)
  if !signed.2.isEmpty && signed.2.all Char.isDigit then
    some (if signed.1 then -(digitsVal signed.2 : Int) else (digitsVal signed.2 : Int))
  else
    none

/-- Evaluate `f` on every element left to right; the first failure aborts the
whole computation (the behaviour of a Python list comprehension whose body
may raise). -/
def optionMapList (f : α → Option β) : List α → Option (List β)
  | [] => some []
  | x :: xs =>
    match f x, optionMapList f xs with
    | some y, some ys => some (y :: ys)
    | _, _ => none

/-- A row of the `Recipe` table: primary key, owning user id, title, the ids
of the associated tags (the many-to-many relation), and the optional stored
image path. -/
structure Recipe where
  id : Nat
  user : Nat
  title : Str
  tags : List Nat
  image : Option Str
deriving DecidableEq

/-- A row of the `Tag` table: primary key, owning user id, name. -/
structure Tag where
  id : Nat
  user : Nat
  name : Str
deriving DecidableEq

/-- The ordering `order_by('-id')` sorts by: descending primary key. -/
def byIdDesc (a b : Recipe) : Prop := b.id ≤ a.id

instance : DecidableRel byIdDesc := fun a b => Nat.decLe b.id a.id

instance : IsTotal Recipe byIdDesc := ⟨fun a b => Nat.le_total b.id a.id⟩

instance : IsTrans Recipe byIdDesc := ⟨fun _ _ _ hab hbc => Nat.le_trans hbc hab⟩

/-- The ordering `order_by('-name')` sorts by: descending name. -/
def byNameDesc (a b : Tag) : Prop := b.name ≤ a.name

instance : DecidableRel byNameDesc := fun a b => inferInstanceAs (Decidable (b.name ≤ a.name))

instance : IsTotal Tag byNameDesc := ⟨fun a b => le_total b.name a.name⟩

instance : IsTrans Tag byNameDesc := ⟨fun _ _ _ hab hbc => le_trans hbc hab⟩

/-- `RecipeViewSet._params_to_ints`: `[int(str_id) for str_id in qs.split(',')]`;
`none` models the `ValueError` raised when some comma-separated token is not
an integer literal. -/
def paramsToInts (qs : Str) : Option (List Int) :=
  optionMapList pyInt (pySplit ',' qs)

/-- `queryset.filter(tags__id__in=tag_ids)`: the SQL join over the
many-to-many table produces one result row per matching (recipe, tag) pair,
so a recipe appears once for each of its tags whose id is in `tagIds`. -/
def filterTagsIdIn (qs : List Recipe) (tagIds : List Int) : List Recipe :=
  qs.flatMap (fun r => (r.tags.filter (fun t => decide (Int.ofNat t ∈ tagIds))).map (fun _ => r))

/-- `.order_by('-id').distinct()` applied to a recipe queryset. -/
def orderByIdDescDistinct (qs : List Recipe) : List Recipe :=
  (List.insertionSort byIdDesc qs).dedup

/-- `RecipeViewSet.get_queryset`: read the `tags` query parameter; when it is
truthy, parse it with `_params_to_ints` (propagating the `ValueError` as
`none`) and keep recipes having at least one tag in the parsed id set; then
restrict to `user=self.request.user`, `order_by('-id')` and `distinct()`. -/
def recipeGetQueryset (db : List Recipe) (user : Nat) (tagsParam : Option Str) :
    Option (List Recipe) :=
  if pyTruthy tagsParam then
    match paramsToInts (tagsParam.getD []) with
    | none => none
    | some tagIds =>
      some (orderByIdDescDistinct ((filterTagsIdIn db tagIds).filter (fun r => r.user == user)))
  else
    some (orderByIdDescDistinct (db.filter (fun r => r.user == user)))

/-- `TagViewSet.get_queryset`: `self.queryset.filter(user=self.request.user).order_by('-name')`. -/
def tagGetQueryset (db : List Tag) (user : Nat) : List Tag :=
  List.insertionSort byNameDesc (db.filter (fun t => t.user == user))

/-- Modelled from the spec: DRF `TokenAuthentication` (the framework class
named in `authentication_classes`, not part of this repository's sources)
resolves the bearer token of the request's authorization header against the
stored token table; "all endpoints except token issuance require a valid
bearer token". `tokens` maps each issued token string to its user id. -/
def tokenAuthenticate (tokens : List (Str × Nat)) (authHeader : Option Str) : Option Nat :=
  match authHeader with
  | none => none
  | some t => (tokens.find? (fun p => p.1 == t)).map (fun p => p.2)

/-- An HTTP response: status code and optional JSON body. -/
structure ApiResponse (α : Type) where
  status : Nat
  body : Option α
deriving DecidableEq

/-- Modelled from the spec: the `IsAuthenticated` permission gate —
"unauthenticated requests receive an authorization-failure status" (401) —
wrapped around `RecipeViewSet`'s list handler, which serves
`get_queryset()`; an unhandled `ValueError` from `_params_to_ints`
surfaces as a server error (500) with no resource data. -/
def recipeListEndpoint (tokens : List (Str × Nat)) (db : List Recipe)
    (authHeader : Option Str) (tagsParam : Option Str) : ApiResponse (List Recipe) :=
  match tokenAuthenticate tokens authHeader with
  | none => ⟨401, none⟩
  | some u =>
    match recipeGetQueryset db u tagsParam with
    | none => ⟨500, none⟩
    | some res => ⟨200, some res⟩

/-- Modelled from the spec: the `IsAuthenticated` permission gate wrapped
around `TagViewSet`'s list handler, which serves `get_queryset()`. -/
def tagListEndpoint (tokens : List (Str × Nat)) (db : List Tag)
    (authHeader : Option Str) : ApiResponse (List Tag) :=
  match tokenAuthenticate tokens authHeader with
  | none => ⟨401, none⟩
  | some u => ⟨200, some (tagGetQueryset db u)⟩

/-- The payload POSTed to the image-upload action: either a decodable image
or some other data. -/
inductive UploadPayload
  | image (content : Str)
  | notImage (content : Str)
deriving DecidableEq

/-- Modelled from the spec: DRF `ImageField` validation inside
`RecipeImageSerializer` — "rejects with a validation error if the payload is
not a decodable image". -/
def imageSerializerIsValid : UploadPayload → Bool
  | .image _ => true
  | .notImage _ => false

/-- `ModelViewSet.get_object()`: look the primary key up inside
`get_queryset()` (owner-scoped; a POST to the upload action carries no
`tags` query parameter), returning `none` (HTTP 404) when absent. -/
def getObject (db : List Recipe) (user pk : Nat) : Option Recipe :=
  ((recipeGetQueryset db user none).getD []).find? (fun r => r.id == pk)

/-- Body of an image-upload response: the serialized recipe on success, the
field-keyed `serializer.errors` object on validation failure. -/
inductive UploadBody
  | recipeData (r : Recipe)
  | fieldErrors (fields : List Str)
  | noContent
deriving DecidableEq

/-- Result of an image-upload request: status, body, and the recipe table
after the request. -/
structure UploadResult where
  status : Nat
  body : UploadBody
  db : List Recipe
deriving DecidableEq

/-- `RecipeViewSet.upload_image`: fetch the object, validate the serializer;
when valid, save (store the image under the generated per-recipe path
`pathOf`, whose generator `core.models.recipe_image_file_path` lies outside
these sources) and answer 200 with the serialized data; otherwise answer 400
with `serializer.errors` and perform no save. -/
def uploadImageAction (pathOf : Nat → Str) (db : List Recipe) (user pk : Nat)
    (payload : UploadPayload) : UploadResult :=
  match getObject db user pk with
  | none => ⟨404, .noContent, db⟩
  | some recipe =>
    if imageSerializerIsValid payload then
      let saved : Recipe := { recipe with image := some (pathOf recipe.id) }
      ⟨200, .recipeData saved, db.map (fun r => if r.id == recipe.id then saved else r)⟩
    else
      ⟨400, .fieldErrors ["image".data], db⟩

/-- Modelled from the spec: the `IsAuthenticated` permission gate wrapped
around the custom `upload_image` action. -/
def uploadImageEndpoint (pathOf : Nat → Str) (tokens : List (Str × Nat)) (db : List Recipe)
    (authHeader : Option Str) (pk : Nat) (payload : UploadPayload) : UploadResult :=
  match tokenAuthenticate tokens authHeader with
  | none => ⟨401, .noContent, db⟩
  | some u => uploadImageAction pathOf db u pk payload

/-- A row of the user table: id, email (the identity) and stored credential. -/
structure UserRec where
  id : Nat
  email : Str
  password : Str
deriving DecidableEq

/-- Modelled from the spec: DRF field-level validation of
`AuthTokenSerializer` — `EmailField()` and `CharField(...)` are required and
reject blank input by default ("Blank or missing password is a validation
failure"), and this runs before the serializer's `validate` method. Returns
the names of the failing fields. -/
def authTokenFieldErrors (email pw : Option Str) : List Str :=
  (if email = none ∨ email = some [] then ["email".data] else []) ++
  (if pw = none ∨ pw = some [] then ["password".data] else [])

/-- Modelled from the spec: Django's `authenticate(username=email,
password=password)` — "authenticated by credential comparison" against the
user table. -/
def authenticateUser (users : List UserRec) (email pw : Str) : Option UserRec :=
  users.find? (fun u => u.email == email && u.password == pw)

/-- Response of the token endpoint: status, the token when issued, and the
error body as (key, error-code) pairs, keyed by field name or by
`non_field_errors` for errors raised inside `validate`. -/
structure TokenResponse where
  status : Nat
  token : Option Str
  errors : List (Str × Str)
deriving DecidableEq

/-- The DRF key under which errors raised in `Serializer.validate` appear. -/
def nonFieldErrorsKey : Str := "non_field_errors".data

/-- The error code of `AuthTokenSerializer.validate`'s `ValidationError`. -/
def authorizationCode : Str := "authorization".data

/-- The DRF error code of a required/blank field failure. -/
def blankCode : Str := "blank".data

/-- The token endpoint (`ObtainAuthToken` running `AuthTokenSerializer`):
field validation first; if it passes, `validate` calls `authenticate` and
raises `serializers.ValidationError(msg, code='authorization')` when no user
matches — DRF turns every `ValidationError` into an HTTP 400 — otherwise a
token bound to the matched user is issued. `tokenOf` maps a user id to that
user's token string. No authorization header is consulted: the endpoint is
open. -/
def obtainToken (users : List UserRec) (tokenOf : Nat → Str)
    (email pw : Option Str) : TokenResponse :=
  let fieldErrs := authTokenFieldErrors email pw
  if fieldErrs.isEmpty then
    match authenticateUser users (email.getD []) (pw.getD []) with
    | none => ⟨400, none, [(nonFieldErrorsKey, authorizationCode)]⟩
    | some u => ⟨200, some (tokenOf u.id), []⟩
  else
    ⟨400, none, fieldErrs.map (fun f => (f, blankCode))⟩

/-- The operations a DRF viewset can expose. -/
inductive ViewAction
  | list
  | create
  | retrieve
  | update
  | updatePartial
  | destroy
  | uploadImage
deriving DecidableEq

/-- A routed URL: HTTP method, path segments (with a `"{pk}"` placeholder
for the detail lookup), and the view action it dispatches to. -/
structure Route where
  method : Str
  path : List Str
  action : ViewAction
deriving DecidableEq

/-- The detail-route lookup placeholder. -/
def pkSegment : Str := "{pk}".data

/-- The `url_path` string of the `@action` decorator on
`RecipeViewSet.upload_image`. -/
def uploadImageUrlPath : Str := "uploa-dimage".data

/-- Modelled from the spec: the routes the DRF router generates for
`RecipeViewSet` (a `ModelViewSet`, so full CRUD) plus the custom
detail action, which is mounted at its `url_path` under the detail URL. -/
def recipeRoutes : List Route :=
  [ ⟨"GET".data, ["recipes".data], .list⟩,
    ⟨"POST".data, ["recipes".data], .create⟩,
    ⟨"GET".data, ["recipes".data, pkSegment], .retrieve⟩,
    ⟨"PUT".data, ["recipes".data, pkSegment], .update⟩,
    ⟨"PATCH".data, ["recipes".data, pkSegment], .updatePartial⟩,
    ⟨"DELETE".data, ["recipes".data, pkSegment], .destroy⟩,
    ⟨"POST".data, ["recipes".data, pkSegment, uploadImageUrlPath], .uploadImage⟩ ]

/-- Modelled from the spec: the actions `mixins.DestroyModelMixin` provides. -/
def destroyModelMixinActions : List ViewAction := [.destroy]

/-- Modelled from the spec: the actions `mixins.UpdateModelMixin` provides
(full and part updates). -/
def updateModelMixinActions : List ViewAction := [.update, .updatePartial]

/-- Modelled from the spec: the actions `mixins.ListModelMixin` provides. -/
def listModelMixinActions : List ViewAction := [.list]

/-- The actions `TagViewSet` exposes: exactly those contributed by the three
mixins it is composed from (`GenericViewSet` itself contributes none). -/
def tagViewSetActions : List ViewAction :=
  destroyModelMixinActions ++ updateModelMixinActions ++ listModelMixinActions

/-! Concrete fixtures, mirroring the repository's API tests. -/

/-- A recipe of user 5 tagged with tag 1. -/
def recipeOne : Recipe := ⟨1, 5, "recipe1".data, [1], none⟩

/-- A recipe of user 5 tagged with tag 2. -/
def recipeTwo : Recipe := ⟨2, 5, "recipe2".data, [2], none⟩

/-- A recipe of user 5 with no tags. -/
def recipeThree : Recipe := ⟨3, 5, "recipe345 me".data, [], none⟩

/-- A recipe of a second user, 7. -/
def recipeOther : Recipe := ⟨4, 7, "other".data, [1], none⟩

/-- A recipe of user 5 carrying both tags 1 and 2. -/
def recipeBoth : Recipe := ⟨5, 5, "both".data, [1, 2], none⟩

/-- A recipe table holding rows of two users. -/
def demoDb : List Recipe :=
  [recipeOne, recipeTwo, recipeThree, recipeOther, recipeBoth]

/-- A tag of user 5. -/
def tagVegan : Tag := ⟨1, 5, "vegan".data⟩

/-- Another tag of user 5. -/
def tagDessert : Tag := ⟨2, 5, "dessert".data⟩

/-- A tag of the second user, 7. -/
def tagFruity : Tag := ⟨3, 7, "fruity".data⟩

/-- A tag table holding rows of two users. -/
def demoTags : List Tag := [tagVegan, tagDessert, tagFruity]

/-- A one-user user table. -/
def demoUsers : List UserRec := [⟨1, "alice@example.com".data, "secret12".data⟩]

/-- A trivial token generator for the fixtures. -/
def demoTokenOf : Nat → Str := fun _ => "demo-token".data

/-! Helper lemmas about the queryset pipeline. -/

/-- Membership in the many-to-many join filter: the recipe is in the base
queryset and carries at least one tag whose id is in the given set. -/
theorem mem_filterTagsIdIn {qs : List Recipe} {ids : List Int} {r : Recipe} :
    r ∈ filterTagsIdIn qs ids ↔ r ∈ qs ∧ ∃ t ∈ r.tags, Int.ofNat t ∈ ids := by
  simp only [filterTagsIdIn, List.mem_flatMap, List.mem_map, List.mem_filter,
    decide_eq_true_eq]
  constructor
  · rintro ⟨a, ha, t, ⟨ht, hid⟩, rfl⟩
    exact ⟨ha, t, ht, hid⟩
  · rintro ⟨ha, t, ht, hid⟩
    exact ⟨r, ha, t, ⟨ht, hid⟩, rfl⟩

/-- `order_by('-id').distinct()` preserves membership. -/
theorem mem_orderByIdDescDistinct {qs : List Recipe} {r : Recipe} :
    r ∈ orderByIdDescDistinct qs ↔ r ∈ qs := by
  unfold orderByIdDescDistinct
  rw [List.mem_dedup, List.mem_insertionSort]

/-- `order_by('-id').distinct()` sorts by descending id. -/
theorem sorted_orderByIdDescDistinct (qs : List Recipe) :
    List.Sorted byIdDesc (orderByIdDescDistinct qs) :=
  List.Pairwise.sublist (List.dedup_sublist _) (List.sorted_insertionSort byIdDesc qs)

/-- `order_by('-id').distinct()` leaves no duplicate rows. -/
theorem nodup_orderByIdDescDistinct (qs : List Recipe) :
    (orderByIdDescDistinct qs).Nodup :=
  List.nodup_dedup _

/-- Whenever `RecipeViewSet.get_queryset` returns without raising, its result
is the `order_by('-id').distinct()` image of some base list. -/
theorem recipeGetQueryset_eq_some {db : List Recipe} {u : Nat} {p : Option Str}
    {res : List Recipe} (h : recipeGetQueryset db u p = some res) :
    ∃ qs, res = orderByIdDescDistinct qs := by
  unfold recipeGetQueryset at h
  split at h
  · cases hp : paramsToInts (p.getD []) with
    | none => rw [hp] at h; exact absurd h (by simp)
    | some ids =>
      rw [hp] at h
      exact ⟨_, (Option.some_injective _ h).symm⟩
  · exact ⟨_, (Option.some_injective _ h).symm⟩

/-- Every row served by `RecipeViewSet.get_queryset` belongs to the request
user. -/
theorem recipeGetQueryset_owner {db : List Recipe} {u : Nat} {p : Option Str}
    {res : List Recipe} (h : recipeGetQueryset db u p = some res) :
    ∀ r ∈ res, r.user = u := by
  intro r hr
  unfold recipeGetQueryset at h
  split at h
  · cases hp : paramsToInts (p.getD []) with
    | none => rw [hp] at h; exact absurd h (by simp)
    | some ids =>
      rw [hp] at h
      rw [← Option.some_injective _ h] at hr
      have := (List.mem_filter.mp (mem_orderByIdDescDistinct.mp hr)).2
      exact beq_iff_eq.mp this
  · rw [← Option.some_injective _ h] at hr
    have := (List.mem_filter.mp (mem_orderByIdDescDistinct.mp hr)).2
    exact beq_iff_eq.mp this

/-- Every row served by `TagViewSet.get_queryset` belongs to the request
user. -/
theorem tagGetQueryset_owner {db : List Tag} {u : Nat} :
    ∀ t ∈ tagGetQueryset db u, t.user = u := by
  intro t ht
  unfold tagGetQueryset at ht
  rw [List.mem_insertionSort] at ht
  exact beq_iff_eq.mp (List.mem_filter.mp ht).2

/-- Membership in `TagViewSet.get_queryset`. -/
theorem mem_tagGetQueryset {db : List Tag} {u : Nat} {t : Tag} :
    t ∈ tagGetQueryset db u ↔ t ∈ db ∧ t.user = u := by
  unfold tagGetQueryset
  rw [List.mem_insertionSort, List.mem_filter, beq_iff_eq]

/-- A failing conversion of any element aborts the whole list conversion. -/
theorem optionMapList_eq_none {f : α → Option β} {l : List α} {x : α}
    (hx : x ∈ l) (hfx : f x = none) : optionMapList f l = none := by
  induction l with
  | nil => cases hx
  | cons y ys ih =>
    rcases List.mem_cons.mp hx with rfl | hmem
    · simp [optionMapList, hfx]
    · cases hfy : f y <;> simp [optionMapList, hfy, ih hmem]

/-! The claims. -/

/-- C1: every queryset the recipe and tag viewsets serve to an authenticated
user contains only rows whose owner field equals that user; in particular,
for users u₁ ≠ u₂, u₁'s recipe list never contains a recipe of u₂, and u₁'s
tag list never contains a tag of u₂. -/
theorem c1_owner_scoped_querysets :
    (∀ db u p res, recipeGetQueryset db u p = some res → ∀ r ∈ res, r.user = u) ∧
    (∀ db u, ∀ t ∈ tagGetQueryset db u, t.user = u) ∧
    (∀ db u₁ u₂ p res, u₁ ≠ u₂ → recipeGetQueryset db u₁ p = some res →
      ∀ r ∈ res, r.user ≠ u₂) ∧
    (∀ db u₁ u₂, u₁ ≠ u₂ → ∀ t ∈ tagGetQueryset db u₁, t.user ≠ u₂) :=
  ⟨fun _ _ _ _ h => recipeGetQueryset_owner h,
   fun _ _ => tagGetQueryset_owner,
   fun _ _ _ _ _ hne h r hr hu => hne ((recipeGetQueryset_owner h r hr).symm.trans hu),
   fun _ _ _ hne t ht hu => hne ((tagGetQueryset_owner t ht).symm.trans hu)⟩

/-- Witness for C1 at a two-user fixture. -/
theorem c1_owner_scoped_querysets_witness :
    recipeBoth.user = 5 ∧ tagVegan.user ≠ 7 :=
  ⟨c1_owner_scoped_querysets.1 demoDb 5 none [recipeBoth, recipeThree, recipeTwo, recipeOne]
      (by decide) recipeBoth (by decide),
   c1_owner_scoped_querysets.2.2.2 demoTags 5 7 (by decide) tagVegan (by decide)⟩

/-- C2: a request to the recipe-list, tag-list or image-upload endpoint that
carries no valid bearer token is answered with status 401 and no resource
data (and no state change), while the token-issuance endpoint never answers
401 — it is the only endpoint exempt from the requirement. -/
theorem c2_unauthenticated_requests_rejected (tokens : List (Str × Nat)) (hdr : Option Str)
    (h : tokenAuthenticate tokens hdr = none) :
    (∀ db p, recipeListEndpoint tokens db hdr p = ⟨401, none⟩) ∧
    (∀ db, tagListEndpoint tokens db hdr = ⟨401, none⟩) ∧
    (∀ pathOf db pk payload,
      uploadImageEndpoint pathOf tokens db hdr pk payload = ⟨401, .noContent, db⟩) ∧
    (∀ users tokenOf e pw, (obtainToken users tokenOf e pw).status ≠ 401) := by
  refine ⟨fun db p => ?_, fun db => ?_, fun pathOf db pk payload => ?_,
    fun users tokenOf e pw => ?_⟩
  · unfold recipeListEndpoint; rw [h]
  · unfold tagListEndpoint; rw [h]
  · unfold uploadImageEndpoint; rw [h]
  · simp only [obtainToken]
    split
    · cases authenticateUser users (e.getD []) (pw.getD []) <;> simp
    · simp

/-- Witness for C2 at a tokenless request. -/
theorem c2_unauthenticated_requests_rejected_witness :
    recipeListEndpoint [("demo-token".data, 5)] demoDb none none = ⟨401, none⟩ :=
  (c2_unauthenticated_requests_rejected [("demo-token".data, 5)] none (by decide)).1 demoDb none

/-- C3: when the `tags` query parameter parses to the id set `ids`, the
recipe list contains a recipe exactly when it is in the table, is owned by
the caller, and carries at least one tag whose id is in `ids`. -/
theorem c3_tags_filter_membership (db : List Recipe) (u : Nat) (s : Str)
    (ids : List Int) (res : List Recipe) (r : Recipe)
    (hs : pyTruthy (some s) = true) (hparse : paramsToInts s = some ids)
    (hq : recipeGetQueryset db u (some s) = some res) :
    r ∈ res ↔ r ∈ db ∧ r.user = u ∧ ∃ t ∈ r.tags, Int.ofNat t ∈ ids := by
  unfold recipeGetQueryset at hq
  rw [hs, if_pos rfl] at hq
  simp only [Option.getD_some, hparse] at hq
  rw [← Option.some_injective _ hq]
  rw [mem_orderByIdDescDistinct, List.mem_filter, mem_filterTagsIdIn, beq_iff_eq]
  tauto

/-- Witness for C3 at the two-tag filter of the repository's own test. -/
theorem c3_tags_filter_membership_witness :
    recipeBoth ∈ [recipeBoth, recipeTwo, recipeOne] ↔
      recipeBoth ∈ demoDb ∧ recipeBoth.user = 5 ∧
        ∃ t ∈ recipeBoth.tags, Int.ofNat t ∈ [(1 : Int), 2] :=
  c3_tags_filter_membership demoDb 5 ("1,2".data) [1, 2] [recipeBoth, recipeTwo, recipeOne]
    recipeBoth (by decide) (by decide) (by decide)

/-- C4: posting a payload that is no decodable image to the image-upload
action of a recipe the caller owns is answered 400 with a field-keyed error
body, and the recipe table — hence the recipe's stored image — is unchanged. -/
theorem c4_upload_invalid_payload (pathOf : Nat → Str) (db : List Recipe)
    (u pk : Nat) (payload : UploadPayload) (recipe : Recipe)
    (hobj : getObject db u pk = some recipe)
    (hbad : imageSerializerIsValid payload = false) :
    uploadImageAction pathOf db u pk payload = ⟨400, .fieldErrors ["image".data], db⟩ := by
  unfold uploadImageAction
  rw [hobj, hbad]
  simp

/-- Witness for C4 at a non-image payload. -/
theorem c4_upload_invalid_payload_witness :
    uploadImageAction (fun _ => "p".data) demoDb 5 1 (.notImage "notanimage".data) =
      ⟨400, .fieldErrors ["image".data], demoDb⟩ :=
  c4_upload_invalid_payload (fun _ => "p".data) demoDb 5 1 (.notImage "notanimage".data)
    recipeOne (by decide) (by decide)

/-- C5: a token request whose password is blank or missing fails field
validation with status 400 and no token, and the outcome is independent of
the user table — no credential check takes place. -/
theorem c5_blank_password_validation (users : List UserRec) (tokenOf : Nat → Str)
    (email pw : Option Str) (h : pw = none ∨ pw = some []) :
    (obtainToken users tokenOf email pw).status = 400 ∧
    (obtainToken users tokenOf email pw).token = none ∧
    obtainToken users tokenOf email pw = obtainToken [] tokenOf email pw := by
  have hne : (authTokenFieldErrors email pw).isEmpty = false := by
    unfold authTokenFieldErrors
    rcases h with rfl | rfl <;> simp
  simp [obtainToken, hne]

/-- Witness for C5 at a blank password. -/
theorem c5_blank_password_validation_witness :
    (obtainToken demoUsers demoTokenOf (some "alice@example.com".data) (some [])).status = 400 ∧
    (obtainToken demoUsers demoTokenOf (some "alice@example.com".data) (some [])).token = none ∧
    obtainToken demoUsers demoTokenOf (some "alice@example.com".data) (some []) =
      obtainToken [] demoTokenOf (some "alice@example.com".data) (some []) :=
  c5_blank_password_validation demoUsers demoTokenOf (some "alice@example.com".data)
    (some []) (Or.inr rfl)

/-- C6 counterexample: with a registered user and a wrong (non-blank)
password, the token endpoint answers 400 — the very status of a validation
failure such as a blank password — and not a distinct denied/unauthorized
status (401 or 403), refuting the claim that a failed credential check
surfaces as a status distinct from a validation error. -/
theorem c6_counterexample_wrong_password_status :
    (obtainToken demoUsers demoTokenOf (some "alice@example.com".data)
        (some "wrong".data)).status = 400 ∧
    (obtainToken demoUsers demoTokenOf (some "alice@example.com".data)
        (some [])).status = 400 ∧
    (obtainToken demoUsers demoTokenOf (some "alice@example.com".data)
        (some "wrong".data)).status ≠ 401 ∧
    (obtainToken demoUsers demoTokenOf (some "alice@example.com".data)
        (some "wrong".data)).status ≠ 403 := by decide

/-- C6 (amended): with non-blank credentials, a failed credential check is
answered 400 — the same status class as a validation error — carrying the
error code `authorization` under `non_field_errors` (this code, not the
status, is what distinguishes it), and no token; a successful check is
answered 200 with a token bound to the matched user. -/
theorem c6_token_endpoint_behaviour (users : List UserRec) (tokenOf : Nat → Str)
    (e pw : Str) (he : e ≠ []) (hpw : pw ≠ []) :
    (authenticateUser users e pw = none →
      obtainToken users tokenOf (some e) (some pw) =
        ⟨400, none, [(nonFieldErrorsKey, authorizationCode)]⟩) ∧
    (∀ u, authenticateUser users e pw = some u →
      obtainToken users tokenOf (some e) (some pw) = ⟨200, some (tokenOf u.id), []⟩) := by
  have herr : authTokenFieldErrors (some e) (some pw) = [] := by
    unfold authTokenFieldErrors
    simp [he, hpw]
  constructor
  · intro hauth
    simp [obtainToken, herr, hauth]
  · intro u hauth
    simp [obtainToken, herr, hauth]

/-- Witness for the amended C6 at correct credentials. -/
theorem c6_token_endpoint_behaviour_witness :
    obtainToken demoUsers demoTokenOf (some "alice@example.com".data)
      (some "secret12".data) = ⟨200, some (demoTokenOf 1), []⟩ :=
  (c6_token_endpoint_behaviour demoUsers demoTokenOf ("alice@example.com".data)
      ("secret12".data) (by decide) (by decide)).2
    ⟨1, "alice@example.com".data, "secret12".data⟩ (by decide)

/-- C7: whatever the `tags` filter, a successful recipe list is sorted by
descending id and holds no duplicate rows — the `distinct()` call absorbs
the duplicates the many-to-many join can produce. -/
theorem c7_list_ordered_and_distinct (db : List Recipe) (u : Nat) (p : Option Str)
    (res : List Recipe) (h : recipeGetQueryset db u p = some res) :
    List.Sorted byIdDesc res ∧ res.Nodup := by
  obtain ⟨qs, rfl⟩ := recipeGetQueryset_eq_some h
  exact ⟨sorted_orderByIdDescDistinct qs, nodup_orderByIdDescDistinct qs⟩

/-- Witness for C7 at a tags filter under which the join matches one recipe
twice. -/
theorem c7_list_ordered_and_distinct_witness :
    List.Sorted byIdDesc [recipeBoth, recipeTwo, recipeOne] ∧
      ([recipeBoth, recipeTwo, recipeOne]).Nodup :=
  c7_list_ordered_and_distinct demoDb 5 (some "1,2".data)
    [recipeBoth, recipeTwo, recipeOne] (by decide)

/-- C8: the tag list serves exactly the caller's tags, sorted by name
descending, and the tag viewset's mixin composition exposes exactly the
destroy, update, part-update and list actions — neither create nor
retrieve. -/
theorem c8_tag_viewset_surface :
    (∀ db u t, t ∈ tagGetQueryset db u ↔ t ∈ db ∧ t.user = u) ∧
    (∀ db u, List.Sorted byNameDesc (tagGetQueryset db u)) ∧
    tagViewSetActions.contains ViewAction.list = true ∧
    tagViewSetActions.contains ViewAction.update = true ∧
    tagViewSetActions.contains ViewAction.updatePartial = true ∧
    tagViewSetActions.contains ViewAction.destroy = true ∧
    tagViewSetActions.contains ViewAction.create = false ∧
    tagViewSetActions.contains ViewAction.retrieve = false :=
  ⟨fun _ _ _ => mem_tagGetQueryset,
   fun _ _ => List.sorted_insertionSort byNameDesc _,
   by decide, by decide, by decide, by decide, by decide, by decide⟩

/-- C9: exactly one route dispatches to the custom image-upload action, and
its path is the misspelled segment `uploa-dimage` under the recipe detail
URL. -/
theorem c9_upload_route_path :
    recipeRoutes.filter (fun r => r.action == ViewAction.uploadImage) =
      [⟨"POST".data, ["recipes".data, pkSegment, uploadImageUrlPath], ViewAction.uploadImage⟩] ∧
    uploadImageUrlPath = "uploa-dimage".data := by decide

/-- C10: a truthy `tags` parameter containing a token that is no integer
literal makes `_params_to_ints` raise, unguarded — `get_queryset` errors and
the public list endpoint answers a server error with no data — while an
empty `tags` string is treated exactly like an absent parameter. -/
theorem c10_tags_param_parsing :
    (∀ db u s tok, pyTruthy (some s) = true → tok ∈ pySplit ',' s → pyInt tok = none →
      recipeGetQueryset db u (some s) = none) ∧
    (∀ tokens db hdr u s tok, tokenAuthenticate tokens hdr = some u →
      pyTruthy (some s) = true → tok ∈ pySplit ',' s → pyInt tok = none →
      recipeListEndpoint tokens db hdr (some s) = ⟨500, none⟩) ∧
    (∀ db u, recipeGetQueryset db u (some []) = recipeGetQueryset db u none) := by
  have key : ∀ (db : List Recipe) (u : Nat) (s tok : Str), pyTruthy (some s) = true →
      tok ∈ pySplit ',' s → pyInt tok = none → recipeGetQueryset db u (some s) = none := by
    intro db u s tok hs hmem hbad
    have hparse : paramsToInts s = none := optionMapList_eq_none hmem hbad
    unfold recipeGetQueryset
    rw [hs, if_pos rfl]
    simp only [Option.getD_some, hparse]
  refine ⟨key, fun tokens db hdr u s tok hauth hs hmem hbad => ?_, fun db u => rfl⟩
  unfold recipeListEndpoint
  rw [hauth]
  dsimp only
  rw [key db u s tok hs hmem hbad]

/-- Witness for C10: an authenticated list request with `tags=abc` reaches
the unhandled conversion failure. -/
theorem c10_tags_param_parsing_witness :
    recipeListEndpoint [("demo-token".data, 5)] demoDb (some "demo-token".data)
      (some "abc".data) = ⟨500, none⟩ :=
  c10_tags_param_parsing.2.1 [("demo-token".data, 5)] demoDb (some "demo-token".data) 5
    ("abc".data) ("abc".data) (by decide) (by decide) (by decide) (by decide)

end RecipeApp
